import Mathlib

/-!
Shallow embedding of the Credit Approval System core
(django_backend/credit_system/utils.py and views.py).

Python `Decimal` values are modelled as exact rationals (ℚ); the two
quantization modes used by the source (`ROUND_HALF_UP` explicitly in
`calculate_emi`, the default `ROUND_HALF_EVEN` in
`determine_corrected_interest_rate`) are modelled explicitly.
Dates are modelled as day numbers (days since 1970-01-01) with
civil-calendar conversions, so that `timedelta` arithmetic and
`date.replace(day=1)` can both be expressed.
-/

namespace CreditSystem

/-- Round a rational to the nearest integer, halves away from zero
(Python ROUND_HALF_UP, applied here to nonnegative and negative values). -/
def rndHalfUp (q : ℚ) : ℤ :=
  if 0 ≤ q then ⌊q + 1/2⌋ else -⌊-q + 1/2⌋

/-- Round a rational to the nearest integer, halves to even
(Python ROUND_HALF_EVEN, the `Decimal.quantize` default). -/
def rndHalfEven (q : ℚ) : ℤ :=
  if q - ⌊q⌋ < 1/2 then ⌊q⌋
  else if 1/2 < q - ⌊q⌋ then ⌊q⌋ + 1
  else if ⌊q⌋ % 2 = 0 then ⌊q⌋ else ⌊q⌋ + 1

/-- Quantize to 2 decimal places, ROUND_HALF_UP:
`x.quantize(Decimal 0.01, rounding=ROUND_HALF_UP)`. -/
def quantHU (x : ℚ) : ℚ := (rndHalfUp (100 * x) : ℚ) / 100

/-- Quantize to 2 decimal places with the default rounding (half even):
`x.quantize(Decimal 0.01)`. -/
def quantHE (x : ℚ) : ℚ := (rndHalfEven (100 * x) : ℚ) / 100

/-- A rational is representable with 2 decimal places. -/
def Is2dp (x : ℚ) : Prop := ∃ k : ℤ, x = (k : ℚ) / 100

instance (x : ℚ) : Decidable (Is2dp x) :=
  decidable_of_iff ((100 * x : ℚ).den = 1) (by
    constructor
    · intro h
      refine ⟨(100 * x).num, ?_⟩
      have h2 : ((100 * x).num : ℚ) = 100 * x := (Rat.den_eq_one_iff _).mp h
      rw [eq_div_iff (by norm_num : (100:ℚ) ≠ 0), mul_comm x 100]
      exact h2.symm
    · rintro ⟨k, rfl⟩
      rw [mul_div_cancel₀ (k : ℚ) (by norm_num : (100:ℚ) ≠ 0)]
      exact Rat.den_intCast k)

/-- Truncation of a rational toward zero (Python `int(Decimal)`). -/
def ratTrunc (q : ℚ) : ℤ :=
  if 0 ≤ q then ⌊q⌋ else -⌊-q⌋

/-- Failure raised by Decimal arithmetic: the only failure `calculate_emi`
can actually raise is a division by zero (there is no argument validation
in the source). -/
inductive EmiErr where
  | divByZero : EmiErr
deriving DecidableEq, Repr

/-- Embedding of `calculate_emi(principal, annual_interest_rate, tenure_months)`
(utils.py lines 13-29).  Decimal division by zero and `0 ** negative`
surface as `EmiErr.divByZero`; otherwise the source returns
`principal / tenure_months` unrounded when the annual rate is zero, and the
amortization formula quantized half-up to 2 decimal places otherwise. -/
def calculate_emi (principal annual_interest_rate : ℚ) (tenure_months : ℤ) :
    Except EmiErr ℚ :=
  if annual_interest_rate = 0 then
    if tenure_months = 0 then .error .divByZero
    else .ok (principal / (tenure_months : ℚ))
  else
    let monthly_interest_rate := annual_interest_rate / 100 / 12
    if monthly_interest_rate = 0 then
      if tenure_months = 0 then .error .divByZero
      else .ok (quantHU (principal / (tenure_months : ℚ)))
    else if 1 + monthly_interest_rate = 0 ∧ tenure_months < 0 then
      .error .divByZero
    else
      let numerator := principal * monthly_interest_rate *
        (1 + monthly_interest_rate) ^ tenure_months
      let denominator := (1 + monthly_interest_rate) ^ tenure_months - 1
      if denominator = 0 then .error .divByZero
      else .ok (quantHU (numerator / denominator))

/-- Embedding of `CreditScoreCalculator.determine_corrected_interest_rate`
(utils.py lines 94-108).  Note: the `credit_score > 50` branch returns the
requested rate without quantization; the two middle bands quantize with the
default rounding (half even); the lowest band returns the literal 100.00. -/
def determine_corrected_interest_rate (credit_score : ℤ) (requested_rate : ℚ) : ℚ :=
  if 50 < credit_score then requested_rate
  else if 30 < credit_score ∧ credit_score ≤ 50 then quantHE (max 12 requested_rate)
  else if 10 < credit_score ∧ credit_score ≤ 30 then quantHE (max 16 requested_rate)
  else 100

/-! ### Dates

Python `datetime.date` values are modelled as day numbers (days since
1970-01-01, negative for earlier dates), with the standard proleptic
Gregorian civil-calendar conversions.  `timedelta(days=k)` is addition of
`k`; `date.replace(day=1)` goes through the civil conversion. -/

/-- Year is a leap year in the proleptic Gregorian calendar. -/
def isLeap (y : ℤ) : Bool :=
  Int.emod y 4 = 0 ∧ (Int.emod y 100 ≠ 0 ∨ Int.emod y 400 = 0)

/-- Number of days in a civil month. -/
def daysInMonth (y m : ℤ) : ℤ :=
  if m = 2 then (if isLeap y then 29 else 28)
  else if m = 4 ∨ m = 6 ∨ m = 9 ∨ m = 11 then 30
  else 31

/-- Civil date (year, month 1-12, day 1-31) to day number since 1970-01-01. -/
def daysFromCivil (y m d : ℤ) : ℤ :=
  let y2 := if m ≤ 2 then y - 1 else y
  let era := Int.fdiv y2 400
  let yoe := y2 - era * 400
  let mp := if 2 < m then m - 3 else m + 9
  let doy := Int.fdiv (153 * mp + 2) 5 + d - 1
  let doe := yoe * 365 + Int.fdiv yoe 4 - Int.fdiv yoe 100 + doy
  era * 146097 + doe - 719468

/-- Day number since 1970-01-01 to civil date (year, month, day). -/
def civilFromDays (z : ℤ) : ℤ × ℤ × ℤ :=
  let z2 := z + 719468
  let era := Int.fdiv z2 146097
  let doe := z2 - era * 146097
  let yoe := Int.fdiv (doe - Int.fdiv doe 1460 + Int.fdiv doe 36524 - Int.fdiv doe 146096) 365
  let y := yoe + era * 400
  let doy := doe - (365 * yoe + Int.fdiv yoe 4 - Int.fdiv yoe 100)
  let mp := Int.fdiv (5 * doy + 2) 153
  let d := doy - Int.fdiv (153 * mp + 2) 5 + 1
  let m := if mp < 10 then mp + 3 else mp - 9
  (if m ≤ 2 then y + 1 else y, m, d)

/-- Year of a day-numbered date. -/
def yearOf (z : ℤ) : ℤ := (civilFromDays z).1

/-- Month of a day-numbered date. -/
def monthOf (z : ℤ) : ℤ := (civilFromDays z).2.1

/-- Embedding of `date.replace(day=1)`: the first day of the month holding `z`. -/
def replaceDay1 (z : ℤ) : ℤ :=
  daysFromCivil (yearOf z) (monthOf z) 1

/-! ### Data model (models.py) -/

/-- Loan status choices (`Loan.LOAN_STATUS_CHOICES`). -/
inductive LoanStatus where
  | pending : LoanStatus
  | approved : LoanStatus
  | rejected : LoanStatus
  | paid : LoanStatus
deriving DecidableEq, Repr

/-- Embedding of the `Loan` model: the fields read by the scoring and
eligibility code.  Dates are day numbers. -/
structure Loan where
  loan_amount : ℚ
  tenure : ℤ
  interest_rate : ℚ
  monthly_repayment : ℚ
  emis_paid_on_time : ℤ
  start_date : ℤ
  end_date : ℤ
  status : LoanStatus
deriving DecidableEq, Repr

/-- Embedding of the `Customer` model: the fields read by the scoring and
eligibility code, together with the customer's loan set (`customer.loans`). -/
structure Customer where
  monthly_salary : ℤ
  approved_limit : ℚ
  current_debt : ℚ
  loans : List Loan
deriving DecidableEq, Repr

/-! ### Credit score engine (utils.py lines 34-91) -/

/-- Months elapsed from `start` to `now` in whole calendar months:
`(now.year - start.year) * 12 + (now.month - start.month)`. -/
def monthsPassed (now start : ℤ) : ℤ :=
  (yearOf now - yearOf start) * 12 + (monthOf now - monthOf start)

/-- Expected EMIs contributed by one loan (utils.py lines 55-62): the full
tenure for a closed loan, `min(tenure, months since start)` for an active one. -/
def expectedEmis (now : ℤ) (l : Loan) : ℤ :=
  if l.status = .approved ∧ now < l.end_date then
    min l.tenure (monthsPassed now l.start_date)
  else l.tenure

/-- The normal (not over-extended) path of
`CreditScoreCalculator.calculate_credit_score` (utils.py lines 47-87):
100 for an empty loan history, otherwise 100 minus the four penalties.
All Decimal arithmetic is exact rational arithmetic; `int(credit_score)`
is truncation toward zero and the result is clamped to [0, 100]. -/
def credit_score_from_history (c : Customer) (now : ℤ) : ℤ :=
  if c.loans = [] then 100
  else
    let total_emis_paid_on_time : ℤ := (c.loans.map (·.emis_paid_on_time)).sum
    let total_expected_emis : ℤ := (c.loans.map (expectedEmis now)).sum
    let s1 : ℚ :=
      if 0 < total_expected_emis then
        let on_time_frac : ℚ := (total_emis_paid_on_time : ℚ) / (total_expected_emis : ℚ)
        if on_time_frac < 9/10 then 100 - (1 - on_time_frac) * 30 else 100
      else 100
    let num_loans : ℤ := c.loans.length
    let s2 : ℚ := if 5 < num_loans then s1 - ((num_loans : ℚ) - 5) * 3 else s1
    let current_year_loans : ℤ := (c.loans.filter (fun l => yearOf l.start_date = yearOf now)).length
    let s3 : ℚ := if 2 < current_year_loans then s2 - ((current_year_loans : ℚ) - 2) * 5 else s2
    let total_approved_volume : ℚ := (c.loans.map (·.loan_amount)).sum
    let s4 : ℚ :=
      if 0 < c.approved_limit then
        let util_frac := total_approved_volume / c.approved_limit
        if 4/5 < util_frac then s3 - (util_frac - 4/5) * 20 else s3
      else s3
    max 0 (min 100 (ratTrunc s4))

/-- Embedding of `CreditScoreCalculator.calculate_credit_score`
(utils.py lines 34-91), with `timezone.now().date()` passed as `now`:
the over-extension short circuit (line 43, strict comparison
`current_debt > approved_limit` → 0), then the history-based score. -/
def calculate_credit_score (c : Customer) (now : ℤ) : ℤ :=
  if c.approved_limit < c.current_debt then 0
  else credit_score_from_history c now

/-! ### Eligibility decision (utils.py lines 111-159) -/

/-- The distinct messages `check_loan_approval` can return.  The
over-limit message interpolates the requested amount and the remaining
limit, so it carries them as arguments. -/
inductive Message where
  | emiExceedsHalfSalary : Message
  | creditScoreTooLow : Message
  | exceedsRemainingLimit (loan_amount remaining : ℚ) : Message
  | loanApproved : Message
  | internalError : Message
deriving DecidableEq, Repr

/-- The tuple returned by `check_loan_approval`:
`(approval status, message, corrected interest rate, monthly installment)`. -/
structure ApprovalResult where
  approved : Bool
  message : Message
  corrected_interest_rate : ℚ
  monthly_installment : ℚ
deriving DecidableEq, Repr

/-- Sum of `monthly_repayment` over the customer's currently active loans:
`customer.loans.filter(status=APPROVED, end_date__gt=now)` aggregated
(utils.py lines 130-131). -/
def sum_current_emis (c : Customer) (now : ℤ) : ℚ :=
  ((c.loans.filter (fun l => l.status = .approved ∧ now < l.end_date)).map
    (·.monthly_repayment)).sum

/-- The body of `check_loan_approval` inside the `try` block
(utils.py lines 116-155).  A Decimal failure raised by `calculate_emi`
propagates as an error to the enclosing handler. -/
def check_loan_approval_body (c : Customer) (loan_amount requested_interest_rate : ℚ)
    (tenure : ℤ) (now : ℤ) : Except EmiErr ApprovalResult :=
  let credit_score := calculate_credit_score c now
  let corrected_interest_rate :=
    determine_corrected_interest_rate credit_score requested_interest_rate
  match calculate_emi loan_amount corrected_interest_rate tenure with
  | .error e => .error e
  | .ok potential_monthly_installment =>
    if (1/2 : ℚ) * (c.monthly_salary : ℚ) <
        sum_current_emis c now + potential_monthly_installment then
      .ok ⟨false, .emiExceedsHalfSalary, corrected_interest_rate,
           potential_monthly_installment⟩
    else if credit_score ≤ 10 then
      .ok ⟨false, .creditScoreTooLow, corrected_interest_rate,
           potential_monthly_installment⟩
    else if c.approved_limit - c.current_debt < loan_amount then
      .ok ⟨false, .exceedsRemainingLimit loan_amount (c.approved_limit - c.current_debt),
           corrected_interest_rate, potential_monthly_installment⟩
    else
      .ok ⟨true, .loanApproved, corrected_interest_rate,
           potential_monthly_installment⟩

/-- Embedding of `CreditScoreCalculator.check_loan_approval`
(utils.py lines 111-159): the `try` body, with the `except` handler
returning the fail-safe tuple
`(False, internal error, requested rate, 0.00)` (lines 157-159). -/
def check_loan_approval (c : Customer) (loan_amount requested_interest_rate : ℚ)
    (tenure : ℤ) (now : ℤ) : ApprovalResult :=
  match check_loan_approval_body c loan_amount requested_interest_rate tenure now with
  | .ok r => r
  | .error _ => ⟨false, .internalError, requested_interest_rate, 0⟩

/-! ### Loan creation view (views.py lines 104-171) -/

/-- Embedding of the approval branch of the `create_loan` view
(views.py lines 120-143): run the eligibility check; on approval build the
Loan record with `start_date = today`,
`end_date = (today + 30 * tenure days).replace(day=1) - 1 day`, status
APPROVED, and add `loan_amount` to the customer's `current_debt`.
Returns the updated customer and the created loan, if any. -/
def create_loan (c : Customer) (loan_amount interest_rate : ℚ) (tenure : ℤ)
    (today : ℤ) : Customer × Option Loan :=
  let res := check_loan_approval c loan_amount interest_rate tenure today
  if res.approved then
    let start_date := today
    let end_date := replaceDay1 (today + 30 * tenure) - 1
    let loan : Loan :=
      { loan_amount := loan_amount
        tenure := tenure
        interest_rate := res.corrected_interest_rate
        monthly_repayment := res.monthly_installment
        emis_paid_on_time := 0
        start_date := start_date
        end_date := end_date
        status := .approved }
    ({ c with current_debt := c.current_debt + loan_amount,
              loans := c.loans ++ [loan] }, some loan)
  else (c, none)

/-- Modelled from the spec: the end date the spec claims
("end_date = start_date + tenure months (end-of-month aligned)") — the
last day of the month reached by advancing `start_date` by `tenure`
calendar months.  The repository has no other implementation of this
phrase; it is stated here only to compare it with what `create_loan` does. -/
def specEndDateMonthsAligned (start tenure : ℤ) : ℤ :=
  let y := yearOf start
  let m := monthOf start
  let k := m - 1 + tenure
  let y2 := y + Int.fdiv k 12
  let m2 := Int.emod k 12 + 1
  daysFromCivil y2 m2 (daysInMonth y2 m2)

/-! ### Concrete fixtures used by the theorems below -/

/-- Witness customer for the C3 internal-error path: no loans, no debt. -/
def c3Customer : Customer :=
  { monthly_salary := 1000, approved_limit := 100, current_debt := 0, loans := [] }

/-- Counterexample customer for C8: an empty loan history but a current
debt above the approved limit. -/
def c8Customer : Customer :=
  { monthly_salary := 1000, approved_limit := 5, current_debt := 10, loans := [] }

/-- Witness customer for C2 and the C1 counterexample: the spec's own
scenario, monthly income 100,000, approved limit 3,600,000, current debt
already at the full limit, no loan history. -/
def c1Customer : Customer :=
  { monthly_salary := 100000, approved_limit := 3600000, current_debt := 3600000,
    loans := [] }

/-- Witness customer for C1 (amended): debt one unit above the limit. -/
def c1bCustomer : Customer :=
  { monthly_salary := 100000, approved_limit := 3600000, current_debt := 3600001,
    loans := [] }

/-- Witness customer for C6: as the spec's approval scenario (income
100,000, limit 3,600,000, no debt, no history). -/
def c6Customer : Customer :=
  { monthly_salary := 100000, approved_limit := 3600000, current_debt := 0,
    loans := [] }

/-- Witness customer for C10: debt exactly at the limit. -/
def c10Customer : Customer :=
  { monthly_salary := 100000, approved_limit := 3600000, current_debt := 3600000,
    loans := [] }

/-! ### Theorems -/

/-- Sanity check of the date model: epoch, a round trip, and the first-of-
month operation. -/
theorem date_model_sanity :
    daysFromCivil 1970 1 1 = 0 ∧
    daysFromCivil 2024 1 1 = 19723 ∧
    civilFromDays 19723 = (2024, 1, 1) ∧
    civilFromDays 19753 = (2024, 1, 31) ∧
    replaceDay1 19753 = 19723 := by
  refine ⟨by decide, by decide, by decide, by decide, by decide⟩

/-- Claim C4: the spec requires `compute_emi` to fail with an
InvalidArgument error for `tenure_months ≤ 0`.  The source performs no
argument validation at all: at tenure 0 the zero-rate branch divides by
zero (Python raises ZeroDivisionError), and at negative tenure it silently
returns a (negative) amount instead of failing. -/
theorem C4_emi_nonpositive_tenure_is_division_error :
    calculate_emi 1000 0 0 = .error .divByZero ∧
    calculate_emi 1200 0 (-3) = .ok (-400) ∧
    calculate_emi 1000 12 0 = .error .divByZero := by
  refine ⟨by norm_num [calculate_emi], by norm_num [calculate_emi], ?_⟩
  norm_num [calculate_emi]

/-- Claim C3: whenever the body of `check_loan_approval` fails with an
internal error, the function returns a rejection (never an approval) with
the generic internal-error message, and the corrected-rate slot of the
result is the original requested rate, unmodified. -/
theorem C3_internal_error_fails_safe (c : Customer)
    (loan_amount requested_interest_rate : ℚ) (tenure now : ℤ) (e : EmiErr)
    (herr : check_loan_approval_body c loan_amount requested_interest_rate tenure now
      = .error e) :
    (check_loan_approval c loan_amount requested_interest_rate tenure now).approved
      = false ∧
    (check_loan_approval c loan_amount requested_interest_rate tenure now).message
      = .internalError ∧
    (check_loan_approval c loan_amount requested_interest_rate tenure now).corrected_interest_rate
      = requested_interest_rate := by
  simp [check_loan_approval, herr]

/-- Witness for C3: requesting tenure 0 makes the EMI computation divide by
zero, so the eligibility check degrades to the internal-error rejection. -/
theorem C3_internal_error_fails_safe_witness :
    (check_loan_approval c3Customer 100 10 0 19723).approved = false ∧
    (check_loan_approval c3Customer 100 10 0 19723).message = .internalError ∧
    (check_loan_approval c3Customer 100 10 0 19723).corrected_interest_rate = 10 :=
  C3_internal_error_fails_safe c3Customer 100 10 0 19723 .divByZero (by
    norm_num [check_loan_approval_body, calculate_credit_score, c3Customer,
      determine_corrected_interest_rate, calculate_emi])

/-- Claim C9: with a zero annual rate and positive principal and tenure,
`calculate_emi` returns exactly `principal / tenure_months`, with no
quantization applied in this branch. -/
theorem C9_emi_zero_rate_exact (p : ℚ) (n : ℤ) (hp : 0 < p) (hn : 0 < n) :
    calculate_emi p 0 n = .ok (p / (n : ℚ)) := by
  rw [calculate_emi, if_pos rfl, if_neg (by omega : ¬ n = 0)]

/-- Witness for C9: 1000 over 3 months at zero rate is exactly 1000/3, a
value that is not representable at 2 decimal places. -/
theorem C9_emi_zero_rate_exact_witness :
    calculate_emi 1000 0 3 = .ok (1000/3) :=
  C9_emi_zero_rate_exact 1000 3 (by norm_num) (by norm_num)

/-- Claim C8 counterexample: a customer with no loan history but
`current_debt` above `approved_limit` scores 0, not 100 — the
over-extension short circuit precedes the empty-history rule. -/
theorem C8_counterexample_empty_history_not_always_100 :
    c8Customer.loans = [] ∧ calculate_credit_score c8Customer 19723 = 0 := by
  refine ⟨rfl, ?_⟩
  norm_num [calculate_credit_score, c8Customer]

/-- Claim C8 (amended): a customer with an empty loan history whose
current debt does not exceed the approved limit scores exactly 100. -/
theorem C8_empty_history_scores_100 (c : Customer) (now : ℤ)
    (hempty : c.loans = []) (hdebt : c.current_debt ≤ c.approved_limit) :
    calculate_credit_score c now = 100 := by
  rw [calculate_credit_score, if_neg (not_lt.mpr hdebt),
    credit_score_from_history, if_pos hempty]

/-- Witness for C8 (amended): an unindebted customer with no loans. -/
theorem C8_empty_history_scores_100_witness :
    calculate_credit_score c3Customer 19723 = 100 :=
  C8_empty_history_scores_100 c3Customer 19723 rfl (by norm_num [c3Customer])

/-- Claim C10: the over-extended short circuit requires
`current_debt` strictly greater than `approved_limit`: at equality the
score is the normal history-based one — 100 for an empty history,
`credit_score_from_history` in general. -/
theorem C10_equal_debt_uses_normal_path (c : Customer) (now : ℤ)
    (heq : c.current_debt = c.approved_limit) :
    calculate_credit_score c now = credit_score_from_history c now ∧
    (c.loans = [] → calculate_credit_score c now = 100) := by
  have h0 : calculate_credit_score c now = credit_score_from_history c now := by
    rw [calculate_credit_score, if_neg (by rw [heq]; exact lt_irrefl _)]
  refine ⟨h0, fun hempty => ?_⟩
  rw [h0, credit_score_from_history, if_pos hempty]

/-- A half-even quantized value is representable with 2 decimal places. -/
theorem Is2dp_quantHE (x : ℚ) : Is2dp (quantHE x) :=
  ⟨rndHalfEven (100 * x), rfl⟩

/-- A half-up quantized value is representable with 2 decimal places. -/
theorem Is2dp_quantHU (x : ℚ) : Is2dp (quantHU x) :=
  ⟨rndHalfUp (100 * x), rfl⟩

/-- Claim C5 counterexample: at score 60 (above 50) and a requested rate
of 12.345, the corrector echoes 12.345 back verbatim — the result is not
quantized to 2 decimal places in this band. -/
theorem C5_counterexample_high_score_not_quantized :
    determine_corrected_interest_rate 60 (2469/200) = 2469/200 ∧
    ¬ Is2dp (2469/200 : ℚ) := by
  constructor
  · norm_num [determine_corrected_interest_rate]
  · rintro ⟨k, hk⟩
    rw [div_eq_div_iff (by norm_num) (by norm_num)] at hk
    have : (2469 * 100 : ℚ) = ((k * 200 : ℤ) : ℚ) := by push_cast; linarith
    have h2 : (246900 : ℤ) = k * 200 := by exact_mod_cast this
    omega

/-- Claim C5 (amended): the corrector's bands are as specified, but only
the three lower bands produce values quantized to 2 decimal places (with
the default half-even rounding); the score > 50 band echoes the requested
rate at its original precision. -/
theorem C5_rate_corrector_bands (score : ℤ) (rate : ℚ)
    (hs0 : 0 ≤ score) (hs1 : score ≤ 100) (hr : 0 ≤ rate) :
    (50 < score →
      determine_corrected_interest_rate score rate = rate) ∧
    (30 < score ∧ score ≤ 50 →
      determine_corrected_interest_rate score rate = quantHE (max 12 rate) ∧
      Is2dp (determine_corrected_interest_rate score rate)) ∧
    (10 < score ∧ score ≤ 30 →
      determine_corrected_interest_rate score rate = quantHE (max 16 rate) ∧
      Is2dp (determine_corrected_interest_rate score rate)) ∧
    (score ≤ 10 →
      determine_corrected_interest_rate score rate = 100 ∧
      Is2dp (determine_corrected_interest_rate score rate)) := by
  refine ⟨fun h => ?_, fun h => ?_, fun h => ?_, fun h => ?_⟩
  · rw [determine_corrected_interest_rate, if_pos h]
  · rw [determine_corrected_interest_rate, if_neg (by omega), if_pos h]
    exact ⟨rfl, Is2dp_quantHE _⟩
  · rw [determine_corrected_interest_rate, if_neg (by omega), if_neg (by omega),
      if_pos h]
    exact ⟨rfl, Is2dp_quantHE _⟩
  · rw [determine_corrected_interest_rate, if_neg (by omega), if_neg (by omega),
      if_neg (by omega)]
    exact ⟨rfl, ⟨10000, by norm_num⟩⟩

/-- Witness for C5 (amended): score 40, requested 12.345, which the
middle band corrects to the half-even quantized 12.34. -/
theorem C5_rate_corrector_bands_witness :
    (50 < (40:ℤ) →
      determine_corrected_interest_rate 40 (2469/200) = 2469/200) ∧
    (30 < (40:ℤ) ∧ (40:ℤ) ≤ 50 →
      determine_corrected_interest_rate 40 (2469/200) = quantHE (max 12 (2469/200)) ∧
      Is2dp (determine_corrected_interest_rate 40 (2469/200))) ∧
    (10 < (40:ℤ) ∧ (40:ℤ) ≤ 30 →
      determine_corrected_interest_rate 40 (2469/200) = quantHE (max 16 (2469/200)) ∧
      Is2dp (determine_corrected_interest_rate 40 (2469/200))) ∧
    ((40:ℤ) ≤ 10 →
      determine_corrected_interest_rate 40 (2469/200) = 100 ∧
      Is2dp (determine_corrected_interest_rate 40 (2469/200))) :=
  C5_rate_corrector_bands 40 (2469/200) (by norm_num) (by norm_num) (by norm_num)

/-- Helper: when the EMI computation succeeds, `check_loan_approval` is the
three-way veto cascade followed by approval. -/
theorem check_loan_approval_of_ok (c : Customer) (loan_amount rate : ℚ)
    (tenure now : ℤ) (e : ℚ)
    (hok : calculate_emi loan_amount
      (determine_corrected_interest_rate (calculate_credit_score c now) rate)
      tenure = .ok e) :
    check_loan_approval c loan_amount rate tenure now =
      (if (1/2 : ℚ) * (c.monthly_salary : ℚ) < sum_current_emis c now + e then
        ⟨false, .emiExceedsHalfSalary,
          determine_corrected_interest_rate (calculate_credit_score c now) rate, e⟩
      else if calculate_credit_score c now ≤ 10 then
        ⟨false, .creditScoreTooLow,
          determine_corrected_interest_rate (calculate_credit_score c now) rate, e⟩
      else if c.approved_limit - c.current_debt < loan_amount then
        ⟨false, .exceedsRemainingLimit loan_amount (c.approved_limit - c.current_debt),
          determine_corrected_interest_rate (calculate_credit_score c now) rate, e⟩
      else
        ⟨true, .loanApproved,
          determine_corrected_interest_rate (calculate_credit_score c now) rate, e⟩) := by
  unfold check_loan_approval check_loan_approval_body
  simp only [hok]
  split_ifs <;> rfl

/-- Helper: when the EMI computation fails, `check_loan_approval` is the
fail-safe rejection carrying the requested rate. -/
theorem check_loan_approval_of_error (c : Customer) (loan_amount rate : ℚ)
    (tenure now : ℤ) (err : EmiErr)
    (herr : calculate_emi loan_amount
      (determine_corrected_interest_rate (calculate_credit_score c now) rate)
      tenure = .error err) :
    check_loan_approval c loan_amount rate tenure now =
      ⟨false, .internalError, rate, 0⟩ := by
  unfold check_loan_approval check_loan_approval_body
  simp only [herr]

/-- Claim C2: when the EMI computation succeeds, the three vetoes of
`check_loan_approval` are evaluated in a fixed order — EMI-to-income
first, then score ≤ 10, then remaining approved limit — the first failing
check determines the whole result, and every rejection still carries the
computed corrected rate and candidate EMI. -/
theorem C2_veto_order (c : Customer) (loan_amount rate : ℚ) (tenure now : ℤ)
    (e : ℚ)
    (hok : calculate_emi loan_amount
      (determine_corrected_interest_rate (calculate_credit_score c now) rate)
      tenure = .ok e) :
    ((1/2 : ℚ) * (c.monthly_salary : ℚ) < sum_current_emis c now + e →
      check_loan_approval c loan_amount rate tenure now =
        ⟨false, .emiExceedsHalfSalary,
          determine_corrected_interest_rate (calculate_credit_score c now) rate, e⟩) ∧
    (¬ (1/2 : ℚ) * (c.monthly_salary : ℚ) < sum_current_emis c now + e →
      calculate_credit_score c now ≤ 10 →
      check_loan_approval c loan_amount rate tenure now =
        ⟨false, .creditScoreTooLow,
          determine_corrected_interest_rate (calculate_credit_score c now) rate, e⟩) ∧
    (¬ (1/2 : ℚ) * (c.monthly_salary : ℚ) < sum_current_emis c now + e →
      10 < calculate_credit_score c now →
      c.approved_limit - c.current_debt < loan_amount →
      check_loan_approval c loan_amount rate tenure now =
        ⟨false, .exceedsRemainingLimit loan_amount (c.approved_limit - c.current_debt),
          determine_corrected_interest_rate (calculate_credit_score c now) rate, e⟩) ∧
    ((check_loan_approval c loan_amount rate tenure now).approved = false →
      (check_loan_approval c loan_amount rate tenure now).corrected_interest_rate =
        determine_corrected_interest_rate (calculate_credit_score c now) rate ∧
      (check_loan_approval c loan_amount rate tenure now).monthly_installment = e) := by
  have hres := check_loan_approval_of_ok c loan_amount rate tenure now e hok
  refine ⟨fun hemi => ?_, fun hemi hscore => ?_, fun hemi hscore hlim => ?_, ?_⟩
  · rw [hres, if_pos hemi]
  · rw [hres, if_neg hemi, if_pos hscore]
  · rw [hres, if_neg hemi, if_neg (by omega : ¬ calculate_credit_score c now ≤ 10),
      if_pos hlim]
  · intro hrej
    rw [hres] at hrej ⊢
    by_cases hemi : (1/2 : ℚ) * (c.monthly_salary : ℚ) < sum_current_emis c now + e
    · rw [if_pos hemi]
      exact ⟨rfl, rfl⟩
    · by_cases hscore : calculate_credit_score c now ≤ 10
      · rw [if_neg hemi, if_pos hscore]
        exact ⟨rfl, rfl⟩
      · by_cases hlim : c.approved_limit - c.current_debt < loan_amount
        · rw [if_neg hemi, if_neg hscore, if_pos hlim]
          exact ⟨rfl, rfl⟩
        · rw [if_neg hemi, if_neg hscore, if_neg hlim] at hrej
          exact absurd hrej (by simp)

/-- Witness for C2 at the spec's scenario rates: score 100, corrected rate
12, candidate EMI 23,536.74; none of the first two vetoes fires and the
remaining-limit veto rejects. -/
theorem C2_veto_order_witness :
    ((1/2 : ℚ) * ((c1Customer.monthly_salary : ℤ) : ℚ) <
        sum_current_emis c1Customer 19723 + 2353674/100 →
      check_loan_approval c1Customer 500000 12 24 19723 =
        ⟨false, .emiExceedsHalfSalary,
          determine_corrected_interest_rate
            (calculate_credit_score c1Customer 19723) 12, 2353674/100⟩) ∧
    (¬ (1/2 : ℚ) * ((c1Customer.monthly_salary : ℤ) : ℚ) <
        sum_current_emis c1Customer 19723 + 2353674/100 →
      calculate_credit_score c1Customer 19723 ≤ 10 →
      check_loan_approval c1Customer 500000 12 24 19723 =
        ⟨false, .creditScoreTooLow,
          determine_corrected_interest_rate
            (calculate_credit_score c1Customer 19723) 12, 2353674/100⟩) ∧
    (¬ (1/2 : ℚ) * ((c1Customer.monthly_salary : ℤ) : ℚ) <
        sum_current_emis c1Customer 19723 + 2353674/100 →
      10 < calculate_credit_score c1Customer 19723 →
      c1Customer.approved_limit - c1Customer.current_debt < 500000 →
      check_loan_approval c1Customer 500000 12 24 19723 =
        ⟨false, .exceedsRemainingLimit 500000
            (c1Customer.approved_limit - c1Customer.current_debt),
          determine_corrected_interest_rate
            (calculate_credit_score c1Customer 19723) 12, 2353674/100⟩) ∧
    ((check_loan_approval c1Customer 500000 12 24 19723).approved = false →
      (check_loan_approval c1Customer 500000 12 24 19723).corrected_interest_rate =
        determine_corrected_interest_rate
          (calculate_credit_score c1Customer 19723) 12 ∧
      (check_loan_approval c1Customer 500000 12 24 19723).monthly_installment =
        2353674/100) :=
  C2_veto_order c1Customer 500000 12 24 19723 (2353674/100) (by
    norm_num [calculate_credit_score, credit_score_from_history, c1Customer,
      determine_corrected_interest_rate, calculate_emi, quantHU, rndHalfUp])

/-- Claim C1 counterexample: the spec's scenario customer has
`current_debt` exactly equal to `approved_limit` (3,600,000 both), but the
over-extension short circuit requires a strict inequality, so the credit
score is 100, not 0 — and the loan request from the scenario is rejected
with the remaining-limit message, not the low-score message. -/
theorem C1_counterexample_debt_equal_limit_scores_100 :
    calculate_credit_score c1Customer 19723 = 100 ∧
    check_loan_approval c1Customer 500000 12 24 19723 =
      ⟨false, .exceedsRemainingLimit 500000 0, 12, 2353674/100⟩ := by
  have hsc : calculate_credit_score c1Customer 19723 = 100 := by
    norm_num [calculate_credit_score, credit_score_from_history, c1Customer]
  refine ⟨hsc, ?_⟩
  have hrate : determine_corrected_interest_rate
      (calculate_credit_score c1Customer 19723) 12 = 12 := by
    rw [hsc, determine_corrected_interest_rate, if_pos (by norm_num)]
  have hok : calculate_emi 500000
      (determine_corrected_interest_rate (calculate_credit_score c1Customer 19723) 12)
      24 = .ok (2353674/100) := by
    rw [hrate]
    norm_num [calculate_emi, quantHU, rndHalfUp]
  rw [check_loan_approval_of_ok c1Customer 500000 12 24 19723 (2353674/100) hok,
    if_neg (by norm_num [sum_current_emis, c1Customer]),
    if_neg (by rw [hsc]; norm_num),
    if_pos (by norm_num [c1Customer])]
  rw [hrate]
  norm_num [c1Customer]

/-- Claim C1 (amended): the scenario requires `current_debt` strictly
greater than `approved_limit` (for example 3,600,001 against 3,600,000).
Then the score is 0, the corrected rate is the sentinel 100.00, the
decision is a rejection for every requested amount, rate and tenure, and
the message is "Credit score is too low." whenever the EMI-to-income veto
(evaluated first) does not fire. -/
theorem C1_overextended_customer_rejected (c : Customer)
    (loan_amount rate : ℚ) (tenure now : ℤ)
    (hd : c.approved_limit < c.current_debt) :
    calculate_credit_score c now = 0 ∧
    determine_corrected_interest_rate (calculate_credit_score c now) rate = 100 ∧
    (check_loan_approval c loan_amount rate tenure now).approved = false ∧
    (∀ e : ℚ, calculate_emi loan_amount 100 tenure = .ok e →
      ¬ ((1/2 : ℚ) * (c.monthly_salary : ℚ) < sum_current_emis c now + e) →
      (check_loan_approval c loan_amount rate tenure now).message
        = .creditScoreTooLow) := by
  have hsc : calculate_credit_score c now = 0 := by
    rw [calculate_credit_score, if_pos hd]
  have hrate : determine_corrected_interest_rate (calculate_credit_score c now) rate
      = 100 := by
    rw [hsc, determine_corrected_interest_rate, if_neg (by norm_num),
      if_neg (by norm_num), if_neg (by norm_num)]
  refine ⟨hsc, hrate, ?_, ?_⟩
  · cases hE : calculate_emi loan_amount
        (determine_corrected_interest_rate (calculate_credit_score c now) rate)
        tenure with
    | error err =>
      rw [check_loan_approval_of_error c loan_amount rate tenure now err hE]
    | ok v =>
      rw [check_loan_approval_of_ok c loan_amount rate tenure now v hE]
      split_ifs with h1 h2 h3
      · rfl
      · rfl
      · rfl
      · rw [hsc] at h2
        exact absurd (by norm_num : (0:ℤ) ≤ 10) h2
  · intro e hok hnoveto
    have hok2 : calculate_emi loan_amount
        (determine_corrected_interest_rate (calculate_credit_score c now) rate)
        tenure = .ok e := by rw [hrate]; exact hok
    rw [check_loan_approval_of_ok c loan_amount rate tenure now e hok2,
      if_neg hnoveto, if_pos (by rw [hsc]; norm_num)]

/-- Witness for C1 (amended): with debt 3,600,001 over limit 3,600,000 the
score is 0, the corrected rate 100.00, and a 1,000 loan over 12 months
(EMI 135.00, far below half the 100,000 income) is rejected for the low
score. -/
theorem C1_overextended_customer_rejected_witness :
    calculate_credit_score c1bCustomer 19723 = 0 ∧
    determine_corrected_interest_rate (calculate_credit_score c1bCustomer 19723) 12
      = 100 ∧
    (check_loan_approval c1bCustomer 1000 12 12 19723).approved = false ∧
    (check_loan_approval c1bCustomer 1000 12 12 19723).message
      = .creditScoreTooLow := by
  have h := C1_overextended_customer_rejected c1bCustomer 1000 12 12 19723
    (by norm_num [c1bCustomer])
  refine ⟨h.1, h.2.1, h.2.2.1, h.2.2.2 135 ?_ ?_⟩
  · norm_num [calculate_emi, quantHU, rndHalfUp]
  · norm_num [sum_current_emis, c1bCustomer]

/-- Helper: the spec's approval scenario goes through: score 100,
corrected rate 12, EMI 23,536.74, all vetoes pass. -/
theorem c6_scenario_approved :
    check_loan_approval c6Customer 500000 12 24 19723 =
      ⟨true, .loanApproved, 12, 2353674/100⟩ := by
  have hsc : calculate_credit_score c6Customer 19723 = 100 := by
    norm_num [calculate_credit_score, credit_score_from_history, c6Customer]
  have hrate : determine_corrected_interest_rate
      (calculate_credit_score c6Customer 19723) 12 = 12 := by
    rw [hsc, determine_corrected_interest_rate, if_pos (by norm_num)]
  have hok : calculate_emi 500000
      (determine_corrected_interest_rate (calculate_credit_score c6Customer 19723) 12)
      24 = .ok (2353674/100) := by
    rw [hrate]
    norm_num [calculate_emi, quantHU, rndHalfUp]
  rw [check_loan_approval_of_ok c6Customer 500000 12 24 19723 (2353674/100) hok,
    if_neg (by norm_num [sum_current_emis, c6Customer]),
    if_neg (by rw [hsc]; norm_num),
    if_neg (by norm_num [c6Customer])]
  rw [hrate]

/-- Claim C6 counterexample: for a loan approved on 2024-01-01 with tenure
24, the persisted `end_date` is 2025-11-30 — the day before the first of
the month reached by adding 720 (= 30 × 24) days — not the end-of-month
date 2026-01-31 obtained by advancing 24 calendar months as the claim
states. -/
theorem C6_counterexample_end_date_not_calendar_months :
    (create_loan c6Customer 500000 12 24 19723).2.map (·.end_date)
      = some (daysFromCivil 2025 11 30) ∧
    specEndDateMonthsAligned 19723 24 = daysFromCivil 2026 1 31 ∧
    daysFromCivil 2025 11 30 ≠ daysFromCivil 2026 1 31 := by
  refine ⟨?_, by decide, by decide⟩
  simp only [create_loan, c6_scenario_approved]
  norm_num
  decide

/-- Claim C6 (amended): when the eligibility check approves, `create_loan`
persists a loan with status APPROVED, `start_date` = today, the corrected
rate and computed EMI as its terms, and
`end_date` = the day before the first day of the month containing
today + 30 × tenure days (not "tenure calendar months, end-of-month
aligned"), and increases the customer's `current_debt` by exactly the
loan amount. -/
theorem C6_create_loan_on_approval (c : Customer) (loan_amount rate : ℚ)
    (tenure today : ℤ)
    (happ : (check_loan_approval c loan_amount rate tenure today).approved = true) :
    ∃ l : Loan,
      create_loan c loan_amount rate tenure today =
        ({ c with current_debt := c.current_debt + loan_amount,
                  loans := c.loans ++ [l] }, some l) ∧
      l.status = .approved ∧
      l.start_date = today ∧
      l.loan_amount = loan_amount ∧
      l.interest_rate =
        (check_loan_approval c loan_amount rate tenure today).corrected_interest_rate ∧
      l.monthly_repayment =
        (check_loan_approval c loan_amount rate tenure today).monthly_installment ∧
      l.emis_paid_on_time = 0 ∧
      l.end_date = replaceDay1 (today + 30 * tenure) - 1 := by
  refine ⟨{ loan_amount := loan_amount, tenure := tenure,
            interest_rate :=
              (check_loan_approval c loan_amount rate tenure today).corrected_interest_rate,
            monthly_repayment :=
              (check_loan_approval c loan_amount rate tenure today).monthly_installment,
            emis_paid_on_time := 0, start_date := today,
            end_date := replaceDay1 (today + 30 * tenure) - 1,
            status := .approved },
    ?_, rfl, rfl, rfl, rfl, rfl, rfl, rfl⟩
  simp only [create_loan]
  rw [if_pos happ]

/-- Witness for C6 (amended): the spec scenario loan on 2024-01-01. -/
theorem C6_create_loan_on_approval_witness :
    ∃ l : Loan,
      create_loan c6Customer 500000 12 24 19723 =
        ({ c6Customer with current_debt := c6Customer.current_debt + 500000,
                           loans := c6Customer.loans ++ [l] }, some l) ∧
      l.status = .approved ∧
      l.start_date = 19723 ∧
      l.loan_amount = 500000 ∧
      l.interest_rate =
        (check_loan_approval c6Customer 500000 12 24 19723).corrected_interest_rate ∧
      l.monthly_repayment =
        (check_loan_approval c6Customer 500000 12 24 19723).monthly_installment ∧
      l.emis_paid_on_time = 0 ∧
      l.end_date = replaceDay1 (19723 + 30 * 24) - 1 :=
  C6_create_loan_on_approval c6Customer 500000 12 24 19723
    (by rw [c6_scenario_approved])

/-- Half-up quantization is monotone on nonnegative arguments. -/
theorem quantHU_mono {x y : ℚ} (hx : 0 ≤ x) (hxy : x ≤ y) :
    quantHU x ≤ quantHU y := by
  have hy : 0 ≤ y := le_trans hx hxy
  unfold quantHU rndHalfUp
  rw [if_pos (by positivity), if_pos (by positivity)]
  have hfl : ⌊(100:ℚ) * x + 1/2⌋ ≤ ⌊(100:ℚ) * y + 1/2⌋ :=
    Int.floor_le_floor (by linarith)
  exact (div_le_div_iff_of_pos_right (by norm_num)).mpr (Int.cast_le.mpr hfl)

/-- The discount-factor sum of the amortization formula: the sum of
`(1/(1+m))^j` for `j = 1 .. k`, in closed form. -/
theorem discount_sum_closed (m : ℚ) (hm : 0 < m) (k : ℕ) :
    ∑ i ∈ Finset.range k, (1/(1+m))^(i+1)
      = ((1+m)^k - 1) / ((1+m)^k * m) := by
  have hx : (0:ℚ) < 1 + m := by linarith
  have hx0 : (1+m : ℚ) ≠ 0 := ne_of_gt hx
  have hm0 : m ≠ 0 := ne_of_gt hm
  induction k with
  | zero => simp
  | succ k ih =>
    rw [Finset.sum_range_succ, ih]
    have hxk : ((1+m):ℚ)^k ≠ 0 := pow_ne_zero _ hx0
    have hxk1 : ((1+m):ℚ)^(k+1) ≠ 0 := pow_ne_zero _ hx0
    field_simp
    ring

/-- The amortization quotient equals the principal divided by the
discount-factor sum. -/
theorem emi_quotient_eq_div_discount_sum (p m : ℚ) (hm : 0 < m) (k : ℕ) :
    p * m * (1+m)^k / ((1+m)^k - 1)
      = p / (∑ i ∈ Finset.range k, (1/(1+m))^(i+1)) := by
  rw [discount_sum_closed m hm k, div_div_eq_mul_div]
  ring

/-- The discount-factor sum is strictly decreasing in the monthly rate. -/
theorem discount_sum_strict_anti (m1 m2 : ℚ) (hm1 : 0 < m1) (h12 : m1 < m2)
    (k : ℕ) (hk : k ≠ 0) :
    ∑ i ∈ Finset.range k, (1/(1+m2))^(i+1)
      < ∑ i ∈ Finset.range k, (1/(1+m1))^(i+1) := by
  have hx1 : (0:ℚ) < 1 + m1 := by linarith
  have hx2 : (0:ℚ) < 1 + m2 := by linarith
  refine Finset.sum_lt_sum_of_nonempty (Finset.nonempty_range_iff.mpr hk) ?_
  intro i _
  refine pow_lt_pow_left₀ ?_ (by positivity) (by omega)
  exact one_div_lt_one_div_of_lt hx1 (by linarith)

/-- The discount-factor sum is positive. -/
theorem discount_sum_pos (m : ℚ) (hm : 0 < m) (k : ℕ) (hk : k ≠ 0) :
    0 < ∑ i ∈ Finset.range k, (1/(1+m))^(i+1) := by
  refine Finset.sum_pos (fun i _ => ?_) (Finset.nonempty_range_iff.mpr hk)
  have hx : (0:ℚ) < 1 + m := by linarith
  positivity

/-- The exact (pre-quantization) amortization quotient is strictly
increasing in the monthly rate, for a positive principal and tenure. -/
theorem emi_quotient_strict_mono (p m1 m2 : ℚ) (k : ℕ)
    (hp : 0 < p) (hm1 : 0 < m1) (h12 : m1 < m2) (hk : k ≠ 0) :
    p * m1 * (1+m1)^k / ((1+m1)^k - 1)
      < p * m2 * (1+m2)^k / ((1+m2)^k - 1) := by
  rw [emi_quotient_eq_div_discount_sum p m1 hm1 k,
    emi_quotient_eq_div_discount_sum p m2 (lt_trans hm1 h12) k]
  exact div_lt_div_of_pos_left hp
    (discount_sum_pos m2 (lt_trans hm1 h12) k hk)
    (discount_sum_strict_anti m1 m2 hm1 h12 k hk)

/-- The exact amortization quotient is positive. -/
theorem emi_quotient_pos (p m : ℚ) (k : ℕ)
    (hp : 0 < p) (hm : 0 < m) (hk : k ≠ 0) :
    0 < p * m * (1+m)^k / ((1+m)^k - 1) := by
  rw [emi_quotient_eq_div_discount_sum p m hm k]
  exact div_pos hp (discount_sum_pos m hm k hk)

/-- For a positive annual rate and positive tenure, `calculate_emi`
returns the half-up-quantized amortization quotient. -/
theorem calculate_emi_pos_eq (p r : ℚ) (k : ℕ) (hr : 0 < r) (hk : k ≠ 0) :
    calculate_emi p r (k : ℤ)
      = .ok (quantHU (p * (r/100/12) * (1 + r/100/12)^k
          / ((1 + r/100/12)^k - 1))) := by
  have hm : 0 < r/100/12 := by positivity
  have hx : (1:ℚ) < 1 + r/100/12 := by linarith
  have hden : ((1 + r/100/12):ℚ)^k - 1 ≠ 0 :=
    sub_ne_zero.mpr (ne_of_gt (one_lt_pow₀ hx hk))
  unfold calculate_emi
  rw [if_neg (ne_of_gt hr), if_neg (ne_of_gt hm),
    if_neg (by rintro ⟨h, -⟩; linarith),
    zpow_natCast, if_neg hden]

/-- Claim C7 counterexample: `compute_emi` is not strictly increasing in
the annual rate.  At principal 1000 and tenure 3, the zero-rate EMI is the
unrounded 1000/3 = 333.33…, while the tiny positive rate 0.002 gives the
quantized 333.33, which is strictly smaller. -/
theorem C7_counterexample_not_strictly_increasing :
    (0:ℚ) < 1/500 ∧
    calculate_emi 1000 0 3 = .ok (1000/3) ∧
    calculate_emi 1000 (1/500) 3 = .ok (33333/100) ∧
    (33333/100 : ℚ) < 1000/3 := by
  refine ⟨by norm_num, by norm_num [calculate_emi], ?_, by norm_num⟩
  norm_num [calculate_emi, quantHU, rndHalfUp]

/-- Claim C7 (amended): for fixed positive principal and tenure,
`compute_emi` is monotonically non-decreasing in the annual rate over
strictly positive rates; strictness — and comparability with the
unquantized zero-rate value — can fail by the width of the final 2-decimal
quantization. -/
theorem C7_emi_monotone_in_rate (p r1 r2 : ℚ) (n : ℤ) (e1 e2 : ℚ)
    (hp : 0 < p) (hn : 0 < n) (hr1 : 0 < r1) (h12 : r1 ≤ r2)
    (hok1 : calculate_emi p r1 n = .ok e1)
    (hok2 : calculate_emi p r2 n = .ok e2) :
    e1 ≤ e2 := by
  lift n to ℕ using hn.le with k
  have hk : k ≠ 0 := by
    intro h
    rw [h] at hn
    exact lt_irrefl _ hn
  rcases eq_or_lt_of_le h12 with rfl | hlt
  · rw [hok1] at hok2
    exact le_of_eq (Except.ok.inj hok2)
  · have hr2 : 0 < r2 := lt_trans hr1 hlt
    rw [calculate_emi_pos_eq p r1 k hr1 hk] at hok1
    rw [calculate_emi_pos_eq p r2 k hr2 hk] at hok2
    have he1 := Except.ok.inj hok1
    have he2 := Except.ok.inj hok2
    rw [← he1, ← he2]
    have hm12 : r1/100/12 < r2/100/12 := by
      rw [div_div, div_div]
      exact (div_lt_div_iff_of_pos_right (by norm_num)).mpr hlt
    refine quantHU_mono ?_ ?_
    · exact le_of_lt (emi_quotient_pos p (r1/100/12) k hp (by positivity) hk)
    · exact le_of_lt
        (emi_quotient_strict_mono p (r1/100/12) (r2/100/12) k hp
          (by positivity) hm12 hk)

/-- Witness for C7 (amended): rates 10 and 12 on a 1000 loan over 12
months give EMIs 87.92 and 88.85. -/
theorem C7_emi_monotone_in_rate_witness :
    calculate_emi 1000 10 12 = .ok (8792/100) ∧
    calculate_emi 1000 12 12 = .ok (8885/100) ∧
    (8792/100 : ℚ) ≤ 8885/100 :=
  ⟨by norm_num [calculate_emi, quantHU, rndHalfUp],
   by norm_num [calculate_emi, quantHU, rndHalfUp],
   C7_emi_monotone_in_rate 1000 10 12 12 (8792/100) (8885/100)
     (by norm_num) (by norm_num) (by norm_num) (by norm_num)
     (by norm_num [calculate_emi, quantHU, rndHalfUp])
     (by norm_num [calculate_emi, quantHU, rndHalfUp])⟩

/-- Witness for C10: with debt equal to the limit and no history the score
is 100, via the normal path. -/
theorem C10_equal_debt_uses_normal_path_witness :
    calculate_credit_score c10Customer 19723 =
      credit_score_from_history c10Customer 19723 ∧
    (c10Customer.loans = [] → calculate_credit_score c10Customer 19723 = 100) :=
  C10_equal_debt_uses_normal_path c10Customer 19723 rfl

end CreditSystem
